import Mathlib

/-!
Verification of the pasta-factory order composition and pricing engine.

The Go sources (`pkg/pasta/pasta.go`, the pizza package, `api/handlers.go`)
are shallowly embedded:

* `time.Time` is modelled by a record of calendar fields; each constructor
  receives the instant its `time.Now()` call observes as an explicit argument.
* Go `float64` price arithmetic is modelled exactly over `ℚ`: the literals
  involved (`0.01`, `1.2`, `1.3`, `1.0`) are taken as the exact rationals the
  source text denotes.
* Go `int` is modelled by `ℤ`; Go strings by `String`.
* Fallible constructors return `Except String`, the handler returns either a
  200 response record or a 400 error message (`http.Error` semantics: the
  body is the message followed by a newline).
-/

/-- Model of the wall-clock instant observed by `time.Now()`. -/
structure Time where
  year : Nat
  month : Nat
  day : Nat
  hour : Nat
  minute : Nat
  second : Nat
deriving DecidableEq, Repr

/-- Zero-pads the decimal rendering of `n` to width `w`, as Go's fixed-width
numeric layout fields (`"2006"`, `"01"`, `"02"`, ...) do. -/
def padNum (w n : Nat) : String :=
  ⟨List.replicate (w - (Nat.repr n).length) '0' ++ (Nat.repr n).data⟩

/-- `time.Now().Format("20060102150405")`: the 14-character timestamp used by
both packages' `generateOrderID`. -/
def formatTimestamp (t : Time) : String :=
  padNum 4 t.year ++ padNum 2 t.month ++ padNum 2 t.day ++
    padNum 2 t.hour ++ padNum 2 t.minute ++ padNum 2 t.second

lemma padNum_length (w n : Nat) :
    (padNum w n).length = (w - (Nat.repr n).length) + (Nat.repr n).length := by
  show (List.replicate (w - (Nat.repr n).length) '0' ++ (Nat.repr n).data).length = _
  rw [List.length_append, List.length_replicate]
  rfl

lemma formatTimestamp_length_pos (t : Time) : 0 < (formatTimestamp t).length := by
  have h4 : 0 < (padNum 4 t.year).length := by
    rw [padNum_length]; omega
  simp only [formatTimestamp, String.length_append]
  omega

lemma formatTimestamp_ne_empty (t : Time) : formatTimestamp t ≠ "" := by
  intro h
  have := formatTimestamp_length_pos t
  rw [h] at this
  simp at this

namespace pasta

/-- `pasta.Order` from `pkg/pasta/pasta.go`. -/
structure Order where
  ID : String
  PastaType : String
  WeightGrams : Int
  Status : String
  CreatedAt : Time
deriving DecidableEq, Repr

/-- `pasta.generateOrderID`: the current time formatted as `"20060102150405"`. -/
def generateOrderID (now : Time) : String := formatTimestamp now

/-- `pasta.NewOrder`: validates weight bounds (minimum first, then maximum),
then the pasta type against {spaghetti, penne, fettuccine}. -/
def NewOrder (pastaType : String) (weightGrams : Int) (now : Time) :
    Except String Order :=
  if weightGrams < 100 then .error "minimum order is 100 grams"
  else if weightGrams > 5000 then .error "maximum order is 5000 grams"
  else if pastaType = "spaghetti" ∨ pastaType = "penne" ∨ pastaType = "fettuccine" then
    .ok { ID := generateOrderID now, PastaType := pastaType,
          WeightGrams := weightGrams, Status := "pending", CreatedAt := now }
  else .error "invalid pasta type"

/-- `(*pasta.Order).CalculatePrice`: 1 cent per gram, 20% premium for
fettuccine. -/
def CalculatePrice (o : Order) : ℚ :=
  let basePrice : ℚ := (o.WeightGrams : ℚ) * (1 / 100)
  if o.PastaType = "fettuccine" then basePrice * (6 / 5) else basePrice

lemma generateOrderID_ne_empty_pasta (t : Time) : generateOrderID t ≠ "" :=
  formatTimestamp_ne_empty t

lemma NewOrder_ok_iff_pasta (k : String) (w : Int) (t : Time) (o : Order) :
    NewOrder k w t = .ok o ↔
      100 ≤ w ∧ w ≤ 5000 ∧ (k = "spaghetti" ∨ k = "penne" ∨ k = "fettuccine") ∧
        o = ⟨generateOrderID t, k, w, "pending", t⟩ := by
  unfold NewOrder
  split_ifs with h1 h2 h3
  · simp only [reduceCtorEq, false_iff]
    rintro ⟨h, -⟩; omega
  · simp only [reduceCtorEq, false_iff]
    rintro ⟨-, h, -⟩; omega
  · simp only [Except.ok.injEq]
    constructor
    · rintro rfl
      exact ⟨by omega, by omega, h3, rfl⟩
    · rintro ⟨-, -, -, rfl⟩; rfl
  · simp only [reduceCtorEq, false_iff]
    rintro ⟨-, -, h, -⟩
    exact h3 h

end pasta

namespace pizza

/-- `pizza.Order` from the pizza package. -/
structure Order where
  ID : String
  PizzaType : String
  SizeInch : Int
  Status : String
  CreatedAt : Time
deriving DecidableEq, Repr

/-- `pizza.generateOrderID`: the current time formatted as `"20060102150405"`. -/
def generateOrderID (now : Time) : String := formatTimestamp now

/-- `pizza.NewOrder`: validates size bounds (minimum first, then maximum),
then the pizza type against {margherita, pepperoni} — `hawaiian` is NOT in
the validated set. -/
def NewOrder (pizzaType : String) (sizeInch : Int) (now : Time) :
    Except String Order :=
  if sizeInch < 8 then .error "minimum size is 8 inches"
  else if sizeInch > 24 then .error "maximum size is 24 inches"
  else if pizzaType = "margherita" ∨ pizzaType = "pepperoni" then
    .ok { ID := generateOrderID now, PizzaType := pizzaType,
          SizeInch := sizeInch, Status := "pending", CreatedAt := now }
  else .error "invalid pizza type"

/-- `(*pizza.Order).CalculatePrice`: $1 per inch of diameter, 20% premium for
pepperoni, 30% premium for hawaiian. -/
def CalculatePrice (o : Order) : ℚ :=
  let basePrice : ℚ := (o.SizeInch : ℚ) * 1
  if o.PizzaType = "pepperoni" then basePrice * (6 / 5)
  else if o.PizzaType = "hawaiian" then basePrice * (13 / 10)
  else basePrice

/-- `(*pizza.Order).CalculateCringeLevel`: size for hawaiian, else 0. -/
def CalculateCringeLevel (o : Order) : Int :=
  if o.PizzaType = "hawaiian" then o.SizeInch else 0

lemma generateOrderID_ne_empty_pizza (t : Time) : generateOrderID t ≠ "" :=
  formatTimestamp_ne_empty t

lemma NewOrder_ok_iff_pizza (k : String) (s : Int) (t : Time) (o : Order) :
    NewOrder k s t = .ok o ↔
      8 ≤ s ∧ s ≤ 24 ∧ (k = "margherita" ∨ k = "pepperoni") ∧
        o = ⟨generateOrderID t, k, s, "pending", t⟩ := by
  unfold NewOrder
  split_ifs with h1 h2 h3
  · simp only [reduceCtorEq, false_iff]
    rintro ⟨h, -⟩; omega
  · simp only [reduceCtorEq, false_iff]
    rintro ⟨-, h, -⟩; omega
  · simp only [Except.ok.injEq]
    constructor
    · rintro rfl
      exact ⟨by omega, by omega, h3, rfl⟩
    · rintro ⟨-, -, -, rfl⟩; rfl
  · simp only [reduceCtorEq, false_iff]
    rintro ⟨-, -, h, -⟩
    exact h3 h

end pizza

namespace api

/-- `api.OrderRequest`, the decoded request body (absent JSON fields decode
to the zero value: `""` or `0`). -/
structure OrderRequest where
  PastaType : String
  WeightGrams : Int
  PizzaType : String
  PizzaSizeInch : Int
deriving DecidableEq, Repr

/-- `api.OrderResponse`, the composite order returned on success. -/
structure OrderResponse where
  OrderID : String
  PastaType : String
  WeightGrams : Int
  Price : ℚ
  Status : String
  PizzaType : String
  PizzaSizeInch : Int
  PizzaPrice : ℚ
deriving DecidableEq, Repr

/-- Outcome of `CreateOrder` on a decodable body: a 200 with the composite
response, or a 400 carrying an error message. -/
inductive HandlerResult where
  | ok (resp : OrderResponse)
  | badRequest (msg : String)
deriving DecidableEq, Repr

/-- `http.Error(w, msg, http.StatusBadRequest)`. -/
def httpError (msg : String) : HandlerResult := .badRequest msg

/-- The HTTP status code of the outcome. -/
def HandlerResult.statusCode : HandlerResult → Nat
  | .ok _ => 200
  | .badRequest _ => 400

/-- The plain-text body of a 400 outcome: `http.Error` writes the message
followed by a single newline. `none` on a 200 (whose body is JSON). -/
def HandlerResult.errorBody : HandlerResult → Option String
  | .ok _ => none
  | .badRequest msg => some (msg ++ "\n")

/-- The generic `price` field of a 200 response. -/
def HandlerResult.priceField : HandlerResult → Option ℚ
  | .ok r => some r.Price
  | .badRequest _ => none

/-- The `pizza_price` field of a 200 response. -/
def HandlerResult.pizzaPriceField : HandlerResult → Option ℚ
  | .ok r => some r.PizzaPrice
  | .badRequest _ => none

/-- `resp := OrderResponse{}` — the zero value. -/
def emptyResponse : OrderResponse :=
  { OrderID := "", PastaType := "", WeightGrams := 0, Price := 0,
    Status := "", PizzaType := "", PizzaSizeInch := 0, PizzaPrice := 0 }

/-- `api.CreateOrder` for a body that decoded into `req`; `t1` and `t2` are
the instants observed by the pasta and pizza `NewOrder` calls respectively. -/
def CreateOrder (req : OrderRequest) (t1 t2 : Time) : HandlerResult :=
  let resp := emptyResponse
  let totalPrice : ℚ := 0
  let pastaStep : Except String (OrderResponse × ℚ) :=
    if req.PastaType ≠ "" then
      match pasta.NewOrder req.PastaType req.WeightGrams t1 with
      | .error e => .error e
      | .ok pastaOrder =>
        let pastaPrice := pasta.CalculatePrice pastaOrder
        .ok ({ resp with
               OrderID := pastaOrder.ID,
               PastaType := pastaOrder.PastaType,
               WeightGrams := pastaOrder.WeightGrams,
               Price := pastaPrice,
               Status := pastaOrder.Status }, totalPrice + pastaPrice)
    else .ok (resp, totalPrice)
  match pastaStep with
  | .error e => httpError e
  | .ok (resp, totalPrice) =>
    let pizzaStep : Except String (OrderResponse × ℚ) :=
      if req.PizzaType ≠ "" then
        match pizza.NewOrder req.PizzaType req.PizzaSizeInch t2 with
        | .error e => .error e
        | .ok pizzaOrder =>
          let pizzaPrice := pizza.CalculatePrice pizzaOrder
          let resp := if resp.OrderID = "" then
              { resp with OrderID := pizzaOrder.ID, Status := pizzaOrder.Status }
            else resp
          .ok ({ resp with
                 PizzaType := pizzaOrder.PizzaType,
                 PizzaSizeInch := pizzaOrder.SizeInch,
                 PizzaPrice := pizzaPrice }, totalPrice + pizzaPrice)
      else .ok (resp, totalPrice)
    match pizzaStep with
    | .error e => httpError e
    | .ok (resp, totalPrice) =>
      if resp.OrderID = "" then
        httpError "Order must include at least pasta or pizza"
      else if resp.PastaType ≠ "" ∧ resp.PizzaType ≠ "" then
        .ok { resp with Price := totalPrice }
      else
        .ok resp

lemma CreateOrder_eq_of_both_ok (req : OrderRequest) (t1 t2 : Time)
    (po : pasta.Order) (zo : pizza.Order)
    (hpa : req.PastaType ≠ "") (hpi : req.PizzaType ≠ "")
    (h1 : pasta.NewOrder req.PastaType req.WeightGrams t1 = .ok po)
    (h2 : pizza.NewOrder req.PizzaType req.PizzaSizeInch t2 = .ok zo) :
    CreateOrder req t1 t2 = .ok
      { OrderID := po.ID, PastaType := po.PastaType, WeightGrams := po.WeightGrams,
        Price := pasta.CalculatePrice po + pizza.CalculatePrice zo,
        Status := po.Status, PizzaType := zo.PizzaType, PizzaSizeInch := zo.SizeInch,
        PizzaPrice := pizza.CalculatePrice zo } := by
  rw [pasta.NewOrder_ok_iff_pasta] at h1
  obtain ⟨hw1, hw2, hk1, rfl⟩ := h1
  rw [pizza.NewOrder_ok_iff_pizza] at h2
  obtain ⟨hs1, hs2, hk2, rfl⟩ := h2
  have h1' : pasta.NewOrder req.PastaType req.WeightGrams t1 =
      .ok ⟨pasta.generateOrderID t1, req.PastaType, req.WeightGrams, "pending", t1⟩ := by
    rw [pasta.NewOrder_ok_iff_pasta]; exact ⟨hw1, hw2, hk1, rfl⟩
  have h2' : pizza.NewOrder req.PizzaType req.PizzaSizeInch t2 =
      .ok ⟨pizza.generateOrderID t2, req.PizzaType, req.PizzaSizeInch, "pending", t2⟩ := by
    rw [pizza.NewOrder_ok_iff_pizza]; exact ⟨hs1, hs2, hk2, rfl⟩
  simp [CreateOrder, h1', h2', hpa, hpi, emptyResponse, pasta.generateOrderID_ne_empty_pasta]

lemma CreateOrder_eq_of_pizza_only (req : OrderRequest) (t1 t2 : Time)
    (zo : pizza.Order)
    (hpa : req.PastaType = "") (hpi : req.PizzaType ≠ "")
    (h2 : pizza.NewOrder req.PizzaType req.PizzaSizeInch t2 = .ok zo) :
    CreateOrder req t1 t2 = .ok
      { OrderID := zo.ID, PastaType := "", WeightGrams := 0,
        Price := 0, Status := zo.Status, PizzaType := zo.PizzaType,
        PizzaSizeInch := zo.SizeInch, PizzaPrice := pizza.CalculatePrice zo } := by
  rw [pizza.NewOrder_ok_iff_pizza] at h2
  obtain ⟨hs1, hs2, hk2, rfl⟩ := h2
  have h2' : pizza.NewOrder req.PizzaType req.PizzaSizeInch t2 =
      .ok ⟨pizza.generateOrderID t2, req.PizzaType, req.PizzaSizeInch, "pending", t2⟩ := by
    rw [pizza.NewOrder_ok_iff_pizza]; exact ⟨hs1, hs2, hk2, rfl⟩
  simp [CreateOrder, h2', hpa, hpi, emptyResponse, pizza.generateOrderID_ne_empty_pizza]

lemma CreateOrder_eq_of_pasta_error (req : OrderRequest) (t1 t2 : Time) (e : String)
    (hpa : req.PastaType ≠ "")
    (h1 : pasta.NewOrder req.PastaType req.WeightGrams t1 = .error e) :
    CreateOrder req t1 t2 = httpError e := by
  simp [CreateOrder, h1, hpa]

lemma CreateOrder_eq_of_pizza_error (req : OrderRequest) (t1 t2 : Time) (e : String)
    (hpaOk : req.PastaType = "" ∨
      ∃ po : pasta.Order, pasta.NewOrder req.PastaType req.WeightGrams t1 = .ok po)
    (hpi : req.PizzaType ≠ "")
    (h2 : pizza.NewOrder req.PizzaType req.PizzaSizeInch t2 = .error e) :
    CreateOrder req t1 t2 = httpError e := by
  rcases hpaOk with hpa | ⟨po, h1⟩
  · simp [CreateOrder, hpa, hpi, h2, emptyResponse]
  · by_cases hpa : req.PastaType = ""
    · simp [CreateOrder, hpa, hpi, h2, emptyResponse]
    · simp [CreateOrder, hpa, hpi, h1, h2]

end api

/-- A fixed concrete clock instant used to instantiate witnesses. -/
def t0 : Time := ⟨2024, 1, 2, 3, 4, 5⟩

/-- C1: for every request in which both a pasta line and a pizza line are
present and both validate, the handler responds 200 and the response's
generic price field equals the sum of the pasta line price and the pizza
line price; in particular the request
`{pasta_type: "penne", weight_grams: 400, pizza_type: "pepperoni",
pizza_size_inch: 14}` yields `price = 20.8`. -/
theorem claim_C1 :
    (∀ (req : api.OrderRequest) (t1 t2 : Time) (po : pasta.Order) (zo : pizza.Order),
      req.PastaType ≠ "" → req.PizzaType ≠ "" →
      pasta.NewOrder req.PastaType req.WeightGrams t1 = .ok po →
      pizza.NewOrder req.PizzaType req.PizzaSizeInch t2 = .ok zo →
      ∃ resp, api.CreateOrder req t1 t2 = .ok resp ∧
        (api.CreateOrder req t1 t2).statusCode = 200 ∧
        resp.Price = pasta.CalculatePrice po + pizza.CalculatePrice zo) ∧
    (∀ t1 t2 : Time,
      (api.CreateOrder ⟨"penne", 400, "pepperoni", 14⟩ t1 t2).statusCode = 200 ∧
      (api.CreateOrder ⟨"penne", 400, "pepperoni", 14⟩ t1 t2).priceField =
        some (104 / 5)) := by
  constructor
  · intro req t1 t2 po zo hpa hpi h1 h2
    have hco := api.CreateOrder_eq_of_both_ok req t1 t2 po zo hpa hpi h1 h2
    exact ⟨_, hco, by rw [hco]; rfl, rfl⟩
  · intro t1 t2
    have h1 : pasta.NewOrder "penne" 400 t1 =
        .ok ⟨pasta.generateOrderID t1, "penne", 400, "pending", t1⟩ := by
      rw [pasta.NewOrder_ok_iff_pasta]
      exact ⟨by omega, by omega, by simp, rfl⟩
    have h2 : pizza.NewOrder "pepperoni" 14 t2 =
        .ok ⟨pizza.generateOrderID t2, "pepperoni", 14, "pending", t2⟩ := by
      rw [pizza.NewOrder_ok_iff_pizza]
      exact ⟨by omega, by omega, by simp, rfl⟩
    have hco := api.CreateOrder_eq_of_both_ok ⟨"penne", 400, "pepperoni", 14⟩ t1 t2
      _ _ (by simp) (by simp) h1 h2
    rw [hco]
    refine ⟨rfl, ?_⟩
    simp [api.HandlerResult.priceField, pasta.CalculatePrice, pizza.CalculatePrice]
    norm_num

/-- C1 witness: both parts instantiated at the request
`{pasta_type: "spaghetti", weight_grams: 300, pizza_type: "margherita",
pizza_size_inch: 12}` and the fixed clock `t0`. -/
theorem claim_C1_witness :
    (∃ resp, api.CreateOrder ⟨"spaghetti", 300, "margherita", 12⟩ t0 t0 = .ok resp ∧
      (api.CreateOrder ⟨"spaghetti", 300, "margherita", 12⟩ t0 t0).statusCode = 200 ∧
      resp.Price =
        pasta.CalculatePrice ⟨pasta.generateOrderID t0, "spaghetti", 300, "pending", t0⟩ +
        pizza.CalculatePrice ⟨pizza.generateOrderID t0, "margherita", 12, "pending", t0⟩) ∧
    (api.CreateOrder ⟨"penne", 400, "pepperoni", 14⟩ t0 t0).statusCode = 200 ∧
    (api.CreateOrder ⟨"penne", 400, "pepperoni", 14⟩ t0 t0).priceField = some (104 / 5) := by
  refine ⟨claim_C1.1 ⟨"spaghetti", 300, "margherita", 12⟩ t0 t0
    ⟨pasta.generateOrderID t0, "spaghetti", 300, "pending", t0⟩
    ⟨pizza.generateOrderID t0, "margherita", 12, "pending", t0⟩
    (by simp) (by simp) ?_ ?_, claim_C1.2 t0 t0⟩
  · rw [pasta.NewOrder_ok_iff_pasta]
    exact ⟨by decide, by decide, by simp, rfl⟩
  · rw [pizza.NewOrder_ok_iff_pizza]
    exact ⟨by decide, by decide, by simp, rfl⟩

/-- C2 counterexample: for the pizza-only request
`{pizza_type: "margherita", pizza_size_inch: 12}` the handler does respond
200 with `pizza_price = 12.0`, but the generic `price` field is `0`, not
`12.0`: the claim that both fields equal `12.0` is false. -/
theorem claim_C2_counterexample :
    (api.CreateOrder ⟨"", 0, "margherita", 12⟩ t0 t0).statusCode = 200 ∧
    (api.CreateOrder ⟨"", 0, "margherita", 12⟩ t0 t0).pizzaPriceField = some 12 ∧
    (api.CreateOrder ⟨"", 0, "margherita", 12⟩ t0 t0).priceField = some 0 ∧
    (api.CreateOrder ⟨"", 0, "margherita", 12⟩ t0 t0).priceField ≠ some 12 := by
  have h2 : pizza.NewOrder "margherita" 12 t0 =
      .ok ⟨pizza.generateOrderID t0, "margherita", 12, "pending", t0⟩ := by
    rw [pizza.NewOrder_ok_iff_pizza]
    exact ⟨by omega, by omega, by simp, rfl⟩
  have hco := api.CreateOrder_eq_of_pizza_only ⟨"", 0, "margherita", 12⟩ t0 t0
    ⟨pizza.generateOrderID t0, "margherita", 12, "pending", t0⟩ rfl (by simp) h2
  rw [hco]
  refine ⟨rfl, ?_, rfl, ?_⟩
  · simp [api.HandlerResult.pizzaPriceField, pizza.CalculatePrice]
  · simp [api.HandlerResult.priceField]

/-- C2 amended: for the pizza-only request
`{pizza_type: "margherita", pizza_size_inch: 12}` (no pasta fields), the
handler responds 200 with `pizza_price = 12.0`, while the generic `price`
field is left at its zero value `0` (it is only populated when a pasta line
exists). -/
theorem claim_C2 :
    ∀ t1 t2 : Time,
      (api.CreateOrder ⟨"", 0, "margherita", 12⟩ t1 t2).statusCode = 200 ∧
      (api.CreateOrder ⟨"", 0, "margherita", 12⟩ t1 t2).pizzaPriceField = some 12 ∧
      (api.CreateOrder ⟨"", 0, "margherita", 12⟩ t1 t2).priceField = some 0 := by
  intro t1 t2
  have h2 : pizza.NewOrder "margherita" 12 t2 =
      .ok ⟨pizza.generateOrderID t2, "margherita", 12, "pending", t2⟩ := by
    rw [pizza.NewOrder_ok_iff_pizza]
    exact ⟨by omega, by omega, by simp, rfl⟩
  have hco := api.CreateOrder_eq_of_pizza_only ⟨"", 0, "margherita", 12⟩ t1 t2
    ⟨pizza.generateOrderID t2, "margherita", 12, "pending", t2⟩ rfl (by simp) h2
  rw [hco]
  refine ⟨rfl, ?_, rfl⟩
  simp [api.HandlerResult.pizzaPriceField, pizza.CalculatePrice]

/-- C3: whenever both a pasta line and a pizza line are created for one
request, the response's `order_id` and `status` are taken from the pasta
line (pasta takes precedence); when the pasta line is absent and only the
pizza line is created, they are taken from the pizza line. -/
theorem claim_C3 :
    (∀ (req : api.OrderRequest) (t1 t2 : Time) (po : pasta.Order) (zo : pizza.Order),
      req.PastaType ≠ "" → req.PizzaType ≠ "" →
      pasta.NewOrder req.PastaType req.WeightGrams t1 = .ok po →
      pizza.NewOrder req.PizzaType req.PizzaSizeInch t2 = .ok zo →
      ∃ resp, api.CreateOrder req t1 t2 = .ok resp ∧
        resp.OrderID = po.ID ∧ resp.Status = po.Status) ∧
    (∀ (req : api.OrderRequest) (t1 t2 : Time) (zo : pizza.Order),
      req.PastaType = "" → req.PizzaType ≠ "" →
      pizza.NewOrder req.PizzaType req.PizzaSizeInch t2 = .ok zo →
      ∃ resp, api.CreateOrder req t1 t2 = .ok resp ∧
        resp.OrderID = zo.ID ∧ resp.Status = zo.Status) := by
  constructor
  · intro req t1 t2 po zo hpa hpi h1 h2
    exact ⟨_, api.CreateOrder_eq_of_both_ok req t1 t2 po zo hpa hpi h1 h2, rfl, rfl⟩
  · intro req t1 t2 zo hpa hpi h2
    exact ⟨_, api.CreateOrder_eq_of_pizza_only req t1 t2 zo hpa hpi h2, rfl, rfl⟩

/-- C3 witness: the combined request
`{pasta_type: "penne", weight_grams: 200, pizza_type: "pepperoni",
pizza_size_inch: 10}` and the pizza-only request
`{pizza_type: "pepperoni", pizza_size_inch: 10}`, both at the fixed clock. -/
theorem claim_C3_witness :
    (∃ resp, api.CreateOrder ⟨"penne", 200, "pepperoni", 10⟩ t0 t0 = .ok resp ∧
      resp.OrderID = (⟨pasta.generateOrderID t0, "penne", 200, "pending", t0⟩ : pasta.Order).ID ∧
      resp.Status = (⟨pasta.generateOrderID t0, "penne", 200, "pending", t0⟩ : pasta.Order).Status) ∧
    (∃ resp, api.CreateOrder ⟨"", 0, "pepperoni", 10⟩ t0 t0 = .ok resp ∧
      resp.OrderID = (⟨pizza.generateOrderID t0, "pepperoni", 10, "pending", t0⟩ : pizza.Order).ID ∧
      resp.Status = (⟨pizza.generateOrderID t0, "pepperoni", 10, "pending", t0⟩ : pizza.Order).Status) := by
  constructor
  · refine claim_C3.1 ⟨"penne", 200, "pepperoni", 10⟩ t0 t0
      ⟨pasta.generateOrderID t0, "penne", 200, "pending", t0⟩
      ⟨pizza.generateOrderID t0, "pepperoni", 10, "pending", t0⟩
      (by simp) (by simp) ?_ ?_
    · rw [pasta.NewOrder_ok_iff_pasta]
      exact ⟨by decide, by decide, by simp, rfl⟩
    · rw [pizza.NewOrder_ok_iff_pizza]
      exact ⟨by decide, by decide, by simp, rfl⟩
  · refine claim_C3.2 ⟨"", 0, "pepperoni", 10⟩ t0 t0
      ⟨pizza.generateOrderID t0, "pepperoni", 10, "pending", t0⟩ rfl (by simp) ?_
    rw [pizza.NewOrder_ok_iff_pizza]
    exact ⟨by decide, by decide, by simp, rfl⟩

/-- C4: for every successfully created pizza order, `CalculatePrice` returns
`sizeInch * 1.0`, multiplied by `1.2` when the kind is pepperoni, multiplied
by `1.3` when the kind is hawaiian, and unmultiplied for margherita. -/
theorem claim_C4 (k : String) (s : Int) (t : Time) (o : pizza.Order)
    (h : pizza.NewOrder k s t = .ok o) :
    pizza.CalculatePrice o =
      (if k = "pepperoni" then ((s : ℚ) * 1) * (6 / 5)
       else if k = "hawaiian" then ((s : ℚ) * 1) * (13 / 10)
       else (s : ℚ) * 1) := by
  rw [pizza.NewOrder_ok_iff_pizza] at h
  obtain ⟨-, -, -, rfl⟩ := h
  rfl

/-- C4 witness: a pepperoni order of 14 inches created at the fixed clock is
priced `14 * 1.0 * 1.2`. -/
theorem claim_C4_witness :
    pizza.CalculatePrice ⟨pizza.generateOrderID t0, "pepperoni", 14, "pending", t0⟩ =
      (if "pepperoni" = "pepperoni" then (((14 : Int) : ℚ) * 1) * (6 / 5)
       else if "pepperoni" = "hawaiian" then (((14 : Int) : ℚ) * 1) * (13 / 10)
       else ((14 : Int) : ℚ) * 1) := by
  refine claim_C4 "pepperoni" 14 t0 _ ?_
  rw [pizza.NewOrder_ok_iff_pizza]
  exact ⟨by omega, by omega, by simp, rfl⟩

/-- C5 counterexample: at `sizeInch = 7` (outside the valid range) the pizza
constructor with kind `hawaiian` fails with the range error
`"minimum size is 8 inches"`, not with `"invalid pizza type"` — so the claim
as stated, which asserts the InvalidKind message for every `sizeInch`, is
false. -/
theorem claim_C5_counterexample :
    pizza.NewOrder "hawaiian" 7 t0 = .error "minimum size is 8 inches" ∧
    pizza.NewOrder "hawaiian" 7 t0 ≠ .error "invalid pizza type" := by
  constructor
  · rfl
  · intro h
    rw [show pizza.NewOrder "hawaiian" 7 t0 = .error "minimum size is 8 inches" from rfl]
      at h
    simp only [Except.error.injEq] at h
    exact absurd h (by decide)

/-- C5 amended: for every `sizeInch` inside the valid range `[8, 24]`, pizza
`createLine` with kind `hawaiian` fails with the InvalidKind error
`"invalid pizza type"` (for out-of-range sizes the range error is returned
instead); creation with kind `hawaiian` never succeeds at any size, and
creation succeeds only for the kinds `margherita` and `pepperoni`, even
though the pricing logic handles `hawaiian`. -/
theorem claim_C5 :
    (∀ (s : Int) (t : Time), 8 ≤ s → s ≤ 24 →
      pizza.NewOrder "hawaiian" s t = .error "invalid pizza type") ∧
    (∀ (s : Int) (t : Time) (o : pizza.Order), pizza.NewOrder "hawaiian" s t ≠ .ok o) ∧
    (∀ (k : String) (s : Int) (t : Time) (o : pizza.Order),
      pizza.NewOrder k s t = .ok o → k = "margherita" ∨ k = "pepperoni") := by
  refine ⟨?_, ?_, ?_⟩
  · intro s t hs1 hs2
    unfold pizza.NewOrder
    rw [if_neg (by omega), if_neg (by omega), if_neg (by decide)]
  · intro s t o h
    rw [pizza.NewOrder_ok_iff_pizza] at h
    obtain ⟨-, -, hk, -⟩ := h
    exact absurd hk (by decide)
  · intro k s t o h
    rw [pizza.NewOrder_ok_iff_pizza] at h
    exact h.2.2.1

/-- C5 witness: instantiated at `sizeInch = 12` for the failure clauses and
at a margherita order for the only-valid-kinds clause. -/
theorem claim_C5_witness :
    pizza.NewOrder "hawaiian" 12 t0 = .error "invalid pizza type" ∧
    pizza.NewOrder "hawaiian" 12 t0 ≠
      .ok ⟨pizza.generateOrderID t0, "hawaiian", 12, "pending", t0⟩ ∧
    ("margherita" = "margherita" ∨ "margherita" = "pepperoni") := by
  refine ⟨claim_C5.1 12 t0 (by omega) (by omega),
    claim_C5.2.1 12 t0 ⟨pizza.generateOrderID t0, "hawaiian", 12, "pending", t0⟩,
    claim_C5.2.2 "margherita" 12 t0
      ⟨pizza.generateOrderID t0, "margherita", 12, "pending", t0⟩ ?_⟩
  rw [pizza.NewOrder_ok_iff_pizza]
  exact ⟨by omega, by omega, by simp, rfl⟩

/-- C6: for every successfully created pasta order, `CalculatePrice` returns
`weightGrams * 0.01`, multiplied by `1.2` if and only if the kind is
fettuccine (all other valid kinds get the unmultiplied base price, with no
rounding). -/
theorem claim_C6 (k : String) (w : Int) (t : Time) (o : pasta.Order)
    (h : pasta.NewOrder k w t = .ok o) :
    pasta.CalculatePrice o =
      (if k = "fettuccine" then ((w : ℚ) * (1 / 100)) * (6 / 5)
       else (w : ℚ) * (1 / 100)) := by
  rw [pasta.NewOrder_ok_iff_pasta] at h
  obtain ⟨-, -, -, rfl⟩ := h
  rfl

/-- C6 witness: a fettuccine order of 250 grams created at the fixed clock is
priced `250 * 0.01 * 1.2`, and a penne order of 400 grams `400 * 0.01`. -/
theorem claim_C6_witness :
    pasta.CalculatePrice ⟨pasta.generateOrderID t0, "fettuccine", 250, "pending", t0⟩ =
      (if "fettuccine" = "fettuccine" then (((250 : Int) : ℚ) * (1 / 100)) * (6 / 5)
       else ((250 : Int) : ℚ) * (1 / 100)) := by
  refine claim_C6 "fettuccine" 250 t0 _ ?_
  rw [pasta.NewOrder_ok_iff_pasta]
  exact ⟨by omega, by omega, by simp, rfl⟩

/-- C7: pasta `createLine` fails with `"minimum order is 100 grams"` when
`weightGrams < 100`, with `"maximum order is 5000 grams"` when
`weightGrams > 5000`, and — the weight checks running first — with
`"invalid pasta type"` when the weight is in range and the kind is not one
of {spaghetti, penne, fettuccine}; for every in-range weight with a valid
kind it succeeds and the created order has status `"pending"`. -/
theorem claim_C7 :
    (∀ (k : String) (w : Int) (t : Time), w < 100 →
      pasta.NewOrder k w t = .error "minimum order is 100 grams") ∧
    (∀ (k : String) (w : Int) (t : Time), w > 5000 →
      pasta.NewOrder k w t = .error "maximum order is 5000 grams") ∧
    (∀ (k : String) (w : Int) (t : Time), 100 ≤ w → w ≤ 5000 →
      ¬(k = "spaghetti" ∨ k = "penne" ∨ k = "fettuccine") →
      pasta.NewOrder k w t = .error "invalid pasta type") ∧
    (∀ (k : String) (w : Int) (t : Time), 100 ≤ w → w ≤ 5000 →
      (k = "spaghetti" ∨ k = "penne" ∨ k = "fettuccine") →
      ∃ o, pasta.NewOrder k w t = .ok o ∧ o.Status = "pending") := by
  refine ⟨?_, ?_, ?_, ?_⟩
  · intro k w t hw
    unfold pasta.NewOrder
    rw [if_pos hw]
  · intro k w t hw
    unfold pasta.NewOrder
    rw [if_neg (by omega), if_pos hw]
  · intro k w t hw1 hw2 hk
    unfold pasta.NewOrder
    rw [if_neg (by omega), if_neg (by omega), if_neg hk]
  · intro k w t hw1 hw2 hk
    exact ⟨⟨pasta.generateOrderID t, k, w, "pending", t⟩,
      (pasta.NewOrder_ok_iff_pasta k w t _).mpr ⟨hw1, hw2, hk, rfl⟩, rfl⟩

/-- C7 witness: the four clauses instantiated at weight 99, weight 5001, an
in-range invalid kind `"ravioli"`, and an in-range spaghetti order. -/
theorem claim_C7_witness :
    pasta.NewOrder "spaghetti" 99 t0 = .error "minimum order is 100 grams" ∧
    pasta.NewOrder "spaghetti" 5001 t0 = .error "maximum order is 5000 grams" ∧
    pasta.NewOrder "ravioli" 300 t0 = .error "invalid pasta type" ∧
    (∃ o, pasta.NewOrder "spaghetti" 300 t0 = .ok o ∧ o.Status = "pending") :=
  ⟨claim_C7.1 "spaghetti" 99 t0 (by omega),
   claim_C7.2.1 "spaghetti" 5001 t0 (by omega),
   claim_C7.2.2.1 "ravioli" 300 t0 (by omega) (by omega) (by decide),
   claim_C7.2.2.2 "spaghetti" 300 t0 (by omega) (by omega) (by decide)⟩

/-- C8: if any present line fails validation, the whole request fails with
HTTP 400 whose body is exactly that line module's error message followed by
a single newline, and no composite order fields are returned — even when a
pasta line had already validated before the pizza line failed. -/
theorem claim_C8 (req : api.OrderRequest) (t1 t2 : Time) (e : String)
    (h : (req.PastaType ≠ "" ∧
            pasta.NewOrder req.PastaType req.WeightGrams t1 = .error e) ∨
         ((req.PastaType = "" ∨
            ∃ po, pasta.NewOrder req.PastaType req.WeightGrams t1 = .ok po) ∧
          req.PizzaType ≠ "" ∧
          pizza.NewOrder req.PizzaType req.PizzaSizeInch t2 = .error e)) :
    api.CreateOrder req t1 t2 = api.httpError e ∧
    (api.CreateOrder req t1 t2).statusCode = 400 ∧
    (api.CreateOrder req t1 t2).errorBody = some (e ++ "\n") := by
  have hmain : api.CreateOrder req t1 t2 = api.httpError e := by
    rcases h with ⟨hpa, h1⟩ | ⟨hpaOk, hpi, h2⟩
    · exact api.CreateOrder_eq_of_pasta_error req t1 t2 e hpa h1
    · exact api.CreateOrder_eq_of_pizza_error req t1 t2 e hpaOk hpi h2
  exact ⟨hmain, by rw [hmain]; rfl, by rw [hmain]; rfl⟩

/-- C8 witness: the request
`{pasta_type: "spaghetti", weight_grams: 300, pizza_type: "margherita",
pizza_size_inch: -1}` (valid pasta line, invalid pizza size) is rejected
with a 400 whose body is `"minimum size is 8 inches\n"`. -/
theorem claim_C8_witness :
    api.CreateOrder ⟨"spaghetti", 300, "margherita", -1⟩ t0 t0 =
      api.httpError "minimum size is 8 inches" ∧
    (api.CreateOrder ⟨"spaghetti", 300, "margherita", -1⟩ t0 t0).statusCode = 400 ∧
    (api.CreateOrder ⟨"spaghetti", 300, "margherita", -1⟩ t0 t0).errorBody =
      some ("minimum size is 8 inches" ++ "\n") := by
  refine claim_C8 ⟨"spaghetti", 300, "margherita", -1⟩ t0 t0 "minimum size is 8 inches"
    (Or.inr ⟨Or.inr ⟨⟨pasta.generateOrderID t0, "spaghetti", 300, "pending", t0⟩, ?_⟩,
      by simp, rfl⟩)
  rw [pasta.NewOrder_ok_iff_pasta]
  exact ⟨by decide, by decide, by simp, rfl⟩

/-- C9: for every decodable request in which neither `pasta_type` nor
`pizza_type` is provided (empty string, regardless of the `weight_grams` or
`pizza_size_inch` values), the handler responds 400 with body
`"Order must include at least pasta or pizza"` (plus `http.Error`'s
newline). -/
theorem claim_C9 (req : api.OrderRequest) (t1 t2 : Time)
    (hpa : req.PastaType = "") (hpi : req.PizzaType = "") :
    api.CreateOrder req t1 t2 =
      api.httpError "Order must include at least pasta or pizza" ∧
    (api.CreateOrder req t1 t2).statusCode = 400 ∧
    (api.CreateOrder req t1 t2).errorBody =
      some ("Order must include at least pasta or pizza" ++ "\n") := by
  have hmain : api.CreateOrder req t1 t2 =
      api.httpError "Order must include at least pasta or pizza" := by
    simp [api.CreateOrder, hpa, hpi, api.emptyResponse]
  exact ⟨hmain, by rw [hmain]; rfl, by rw [hmain]; rfl⟩

/-- C9 witness: the empty request `{}` and a request carrying only stray
numeric values both get the 400. -/
theorem claim_C9_witness :
    (api.CreateOrder ⟨"", 0, "", 0⟩ t0 t0 =
      api.httpError "Order must include at least pasta or pizza" ∧
     (api.CreateOrder ⟨"", 0, "", 0⟩ t0 t0).statusCode = 400 ∧
     (api.CreateOrder ⟨"", 0, "", 0⟩ t0 t0).errorBody =
      some ("Order must include at least pasta or pizza" ++ "\n")) ∧
    (api.CreateOrder ⟨"", 99999, "", -5⟩ t0 t0 =
      api.httpError "Order must include at least pasta or pizza" ∧
     (api.CreateOrder ⟨"", 99999, "", -5⟩ t0 t0).statusCode = 400 ∧
     (api.CreateOrder ⟨"", 99999, "", -5⟩ t0 t0).errorBody =
      some ("Order must include at least pasta or pizza" ++ "\n")) :=
  ⟨claim_C9 ⟨"", 0, "", 0⟩ t0 t0 rfl rfl,
   claim_C9 ⟨"", 99999, "", -5⟩ t0 t0 rfl rfl⟩

/-- C10: in both line constructors the quantity-range checks are evaluated
before the kind check: whenever the quantity violates a bound AND the kind
is outside the valid enumeration, the returned error is the range error
message (minimum checked before maximum), never the invalid-kind message. -/
theorem claim_C10 :
    (∀ (k : String) (w : Int) (t : Time),
      ¬(k = "spaghetti" ∨ k = "penne" ∨ k = "fettuccine") →
      (w < 100 ∨ w > 5000) →
      pasta.NewOrder k w t = .error
        (if w < 100 then "minimum order is 100 grams"
         else "maximum order is 5000 grams") ∧
      pasta.NewOrder k w t ≠ .error "invalid pasta type") ∧
    (∀ (k : String) (s : Int) (t : Time),
      ¬(k = "margherita" ∨ k = "pepperoni") →
      (s < 8 ∨ s > 24) →
      pizza.NewOrder k s t = .error
        (if s < 8 then "minimum size is 8 inches"
         else "maximum size is 24 inches") ∧
      pizza.NewOrder k s t ≠ .error "invalid pizza type") := by
  constructor
  · intro k w t hk hw
    have hmain : pasta.NewOrder k w t = .error
        (if w < 100 then "minimum order is 100 grams"
         else "maximum order is 5000 grams") := by
      by_cases h1 : w < 100
      · rw [if_pos h1]
        unfold pasta.NewOrder
        rw [if_pos h1]
      · rw [if_neg h1]
        unfold pasta.NewOrder
        rw [if_neg h1, if_pos (by omega)]
    refine ⟨hmain, ?_⟩
    rw [hmain]
    split_ifs <;> simp
  · intro k s t hk hs
    have hmain : pizza.NewOrder k s t = .error
        (if s < 8 then "minimum size is 8 inches"
         else "maximum size is 24 inches") := by
      by_cases h1 : s < 8
      · rw [if_pos h1]
        unfold pizza.NewOrder
        rw [if_pos h1]
      · rw [if_neg h1]
        unfold pizza.NewOrder
        rw [if_neg h1, if_pos (by omega)]
    refine ⟨hmain, ?_⟩
    rw [hmain]
    split_ifs <;> simp

/-- C10 witness: instantiated at kind `"ravioli"` with weight 50 (min error)
and kind `"hawaiian"` with size 30 (max error). -/
theorem claim_C10_witness :
    (pasta.NewOrder "ravioli" 50 t0 = .error
      (if (50 : Int) < 100 then "minimum order is 100 grams"
       else "maximum order is 5000 grams") ∧
     pasta.NewOrder "ravioli" 50 t0 ≠ .error "invalid pasta type") ∧
    (pizza.NewOrder "hawaiian" 30 t0 = .error
      (if (30 : Int) < 8 then "minimum size is 8 inches"
       else "maximum size is 24 inches") ∧
     pizza.NewOrder "hawaiian" 30 t0 ≠ .error "invalid pizza type") :=
  ⟨claim_C10.1 "ravioli" 50 t0 (by decide) (Or.inl (by omega)),
   claim_C10.2 "hawaiian" 30 t0 (by decide) (Or.inr (by omega))⟩
